import Mathlib

/-!
Verification of the cargo-note logbook core (`src/app.py`) against its
specification.  The Python source is shallowly embedded: the `DataManager`
state becomes the structure `Data`, its methods become pure state-passing
functions, and the view-level aggregations of the Streamlit tabs become
functions over record lists.  Machine integers are modelled as `Int`
(Python ints are unbounded) and the float-valued fields (`distance`,
`liters`) as `ℚ`, so the arithmetic identities are exact.
-/

set_option linter.unusedVariables false

namespace CargoNote

/-! ### Calendar arithmetic (embedding of `datetime` as used by the source) -/

/-- Gregorian leap-year rule, as Python's `datetime`/`calendar`. -/
def isLeapYear (y : Nat) : Bool :=
  y % 4 == 0 && (y % 100 != 0 || y % 400 == 0)

/-- Number of days in month `m` of year `y`, as Python's `datetime`. -/
def daysInMonth (y m : Nat) : Nat :=
  if m = 2 then (if isLeapYear y then 29 else 28)
  else if m = 4 ∨ m = 6 ∨ m = 9 ∨ m = 11 then 30 else 31

/-- The calendar day preceding `(y, m, d)`: models `dt - timedelta(days=1)`
applied to a valid date (the date part of the result; the clock time is
unchanged by the subtraction and is discarded by the source's `strftime`). -/
def prevDay (y m d : Nat) : Nat × Nat × Nat :=
  if 2 ≤ d then (y, m, d - 1)
  else if 2 ≤ m then (y, m - 1, daysInMonth y (m - 1))
  else (y - 1, 12, 31)

/-! ### `strptime`-style parsing of `"YYYY-MM-DD HH:MM"`

`DataManager.get_statistical_date` calls
`datetime.strptime(f"{date_str} {time_str}", "%Y-%m-%d %H:%M")`.
CPython's `_strptime` compiles this format to a regex: `%Y` is exactly four
digits, `%m`/`%d`/`%H`/`%M` are one or two digits, literal `-`/`:` match
themselves, the space matches one or more whitespace characters, and the
whole string must be consumed; the `datetime` constructor then validates
the ranges (year ≥ 1, month 1–12, day 1–daysInMonth, hour ≤ 23,
minute ≤ 59).  A maximal-digit-run reader followed by the same range checks
accepts exactly the same strings: whenever the regex engine backtracks to a
shorter digit match, the next character is still a digit and the following
literal fails, so the overall outcome agrees. -/

def numFromDigits (ds : List Char) : Nat :=
  ds.foldl (fun a c => a * 10 + (c.toNat - 48)) 0

def isPyDigit (c : Char) : Bool := '0' ≤ c && c ≤ '9'

/-- ASCII whitespace matched by the regex `\s`. -/
def isPySpace (c : Char) : Bool :=
  c == ' ' || c == '\t' || c == '\n' || c == '\r' || c == '\x0b' || c == '\x0c'

/-- Read exactly four digits (`%Y`). -/
def readFixed4 (cs : List Char) : Option (Nat × List Char) :=
  let ds := cs.takeWhile isPyDigit
  if ds.length = 4 then some (numFromDigits ds, cs.drop 4) else none

/-- Read a maximal run of one or two digits (`%m`, `%d`, `%H`, `%M`). -/
def readUpTo2 (cs : List Char) : Option (Nat × List Char) :=
  let ds := cs.takeWhile isPyDigit
  if ds.length = 1 ∨ ds.length = 2 then
    some (numFromDigits ds, cs.drop ds.length)
  else none

def expectChar (c : Char) (cs : List Char) : Option (List Char) :=
  match cs with
  | c2 :: rest => if c2 = c then some rest else none
  | [] => none

/-- One or more whitespace characters (the literal space in the format). -/
def skipSpaces1 (cs : List Char) : Option (List Char) :=
  let ws := cs.takeWhile isPySpace
  if 1 ≤ ws.length then some (cs.drop ws.length) else none

/-- Parse `f"{date_str} {time_str}"` with format `"%Y-%m-%d %H:%M"`,
returning `(year, month, day, hour, minute)` on success. -/
def parseDateTime (date_str time_str : String) :
    Option (Nat × Nat × Nat × Nat × Nat) := do
  let cs := (date_str ++ " " ++ time_str).toList
  let (y, cs) ← readFixed4 cs
  let cs ← expectChar '-' cs
  let (mo, cs) ← readUpTo2 cs
  let cs ← expectChar '-' cs
  let (d, cs) ← readUpTo2 cs
  let cs ← skipSpaces1 cs
  let (h, cs) ← readUpTo2 cs
  let cs ← expectChar ':' cs
  let (mi, cs) ← readUpTo2 cs
  if cs = [] ∧ 1 ≤ y ∧ 1 ≤ mo ∧ mo ≤ 12 ∧ 1 ≤ d ∧ d ≤ daysInMonth y mo
      ∧ h ≤ 23 ∧ mi ≤ 59 then
    pure (y, mo, d, h, mi)
  else none

/-- Left-pad the decimal rendering of `n` with zeros to width `w`. -/
def padNum (w n : Nat) : String :=
  let s := toString n
  if s.length < w then String.mk (List.replicate (w - s.length) '0') ++ s else s

/-- `dt.strftime("%Y-%m-%d")`.  (Zero-padded; for years ≥ 1000 — every date
the application can produce — this matches the platform `strftime`.) -/
def formatDate (y m d : Nat) : String :=
  padNum 4 y ++ "-" ++ padNum 2 m ++ "-" ++ padNum 2 d

/-- `DataManager.get_statistical_date`: parse the combined timestamp; if the
hour is `< 4` attribute the record to the previous calendar day, otherwise
to its own day; any exception inside the `try` (a parse failure, or the
`OverflowError` that `dt - timedelta(days=1)` raises on `0001-01-01`, the
minimum representable date) is caught by the bare `except`, which returns
the raw `date_str`. -/
def get_statistical_date (date_str time_str : String) : String :=
  match parseDateTime date_str time_str with
  | none => date_str
  | some (y, m, d, h, _mi) =>
    if h < 4 then
      if y = 1 ∧ m = 1 ∧ d = 1 then date_str
      else formatDate (prevDay y m d).1 (prevDay y m d).2.1 (prevDay y m d).2.2
    else formatDate y m d

/-! ### The record and store data model

A record is the dictionary built by the save button of the input tab
(`new_record`, `src/app.py` lines 309–326): every field is always present,
with the defaults of the corresponding `.get(..., default)` calls.  `from`
is a Lean keyword, so the field is named `from_`.  Python floats
(`distance`, `liters`) are modelled as `ℚ`. -/

structure Rec where
  id : Int
  date : String
  time : String
  type : String
  income : Int
  cost : Int
  distance : ℚ
  from_ : String
  to_ : String
  unitPrice : Int
  liters : ℚ
  brand : String
  subsidy : Int
  expenseItem : String
  supplyItem : String
  mileage : Int
  deriving DecidableEq

structure Settings where
  subsidy_limit : Int
  mileage_correction : Int
  deriving DecidableEq

/-- The `DataManager.data` dictionary.  The string-keyed Python dicts
(`locations`, `fares`, `distances`, `costs`) are modelled as insertion-order
association lists with unique keys, matching dict semantics. -/
structure Data where
  records : List Rec
  centers : List String
  locations : List (String × String × String)
  fares : List (String × Int)
  distances : List (String × ℚ)
  costs : List (String × Int)
  expense_items : List String
  settings : Settings
  deriving DecidableEq

/-- `DataManager.__init__`'s default data (persistence, which `load_data`
layers on top, is out of scope; the in-memory transitions are modelled). -/
def initData : Data :=
  { records := []
    centers := ["안성", "안산", "용인", "이천", "인천"]
    locations := []
    fares := []
    distances := []
    costs := []
    expense_items := []
    settings := { subsidy_limit := 0, mileage_correction := 0 } }

/-- Python dict assignment `m[k] = v`: overwrite in place if the key is
present, else append (dicts preserve insertion order). -/
def dictInsert (k : String) (v : α) (m : List (String × α)) :
    List (String × α) :=
  if m.any (fun p => p.1 == k) then
    m.map (fun p => if p.1 = k then (k, v) else p)
  else m ++ [(k, v)]

/-- Python dict lookup `m.get(k)` as an `Option`. -/
def dictGet (m : List (String × α)) (k : String) : Option α :=
  match m with
  | [] => none
  | (k2, v) :: rest => if k2 = k then some v else dictGet rest k

/-- Python's `<=` on strings: lexicographic comparison of the code-point
sequences. -/
def charListLe : List Char → List Char → Bool
  | [], _ => true
  | _ :: _, [] => false
  | c1 :: t1, c2 :: t2 =>
    if c1.toNat < c2.toNat then true
    else if c2.toNat < c1.toNat then false
    else charListLe t1 t2

def strLe (a b : String) : Bool := charListLe a.toList b.toList

/-- Python `list.sort()` on strings (stable, lexicographic by code point,
rendered as insertion sort — extensionally equal on the duplicate-free
lists the store maintains). -/
def insertSorted (x : String) : List String → List String
  | [] => [x]
  | y :: ys => if strLe x y then x :: y :: ys else y :: insertSorted x ys

def sortStrings : List String → List String
  | [] => []
  | x :: xs => insertSorted x (sortStrings xs)

/-! ### `DataManager` operations -/

/-- The route record types of the auto-learning branch of `add_record`:
`['화물운송', '대기', '공차이동']` (Transport, Waiting, Deadhead). -/
def routeTypes : List String := ["화물운송", "대기", "공차이동"]

/-- `key = f"{record['from']}-{record['to']}"`. -/
def routeKey (record : Rec) : String := record.from_ ++ "-" ++ record.to_

/-- `if record.get('income', 0) > 0: self.data['fares'][key] = record['income']` -/
def learnFares (record : Rec) (s : Data) : Data :=
  if 0 < record.income then
    { s with fares := dictInsert (routeKey record) record.income s.fares }
  else s

/-- `if record.get('distance', 0) > 0: self.data['distances'][key] = ...` -/
def learnDistances (record : Rec) (s : Data) : Data :=
  if 0 < record.distance then
    { s with distances := dictInsert (routeKey record) record.distance s.distances }
  else s

/-- `if record.get('cost', 0) > 0: self.data['costs'][key] = record['cost']` -/
def learnCosts (record : Rec) (s : Data) : Data :=
  if 0 < record.cost then
    { s with costs := dictInsert (routeKey record) record.cost s.costs }
  else s

/-- The `if record.get('from') and record.get('to')` block of `add_record`
(Python string truthiness: non-empty). -/
def learnRoute (record : Rec) (s : Data) : Data :=
  if record.from_ ≠ "" ∧ record.to_ ≠ "" then
    learnCosts record (learnDistances record (learnFares record s))
  else s

/-- One step of `for loc in [record.get('from'), record.get('to')]`:
`if loc and loc not in self.data['centers']: append; sort`. -/
def addCenter (loc : String) (s : Data) : Data :=
  if loc ≠ "" ∧ loc ∉ s.centers then
    { s with centers := sortStrings (s.centers ++ [loc]) }
  else s

/-- The expense-item auto-learning block of `add_record`. -/
def learnExpense (record : Rec) (s : Data) : Data :=
  if record.expenseItem ≠ "" ∧ record.expenseItem ∉ s.expense_items then
    { s with expense_items := sortStrings (s.expense_items ++ [record.expenseItem]) }
  else s

/-- All side effects of `DataManager.add_record` before the append. -/
def preAdd (record : Rec) (s : Data) : Data :=
  learnExpense record
    (if record.type ∈ routeTypes then
      addCenter record.to_ (addCenter record.from_ (learnRoute record s))
    else s)

/-- `DataManager.add_record` (the final `save_data` I/O is out of scope). -/
def add_record (record : Rec) (s : Data) : Data :=
  { preAdd record s with records := (preAdd record s).records ++ [record] }

/-- `DataManager.delete_record`:
`self.data["records"] = [r for r in self.data["records"] if r['id'] != record_id]`. -/
def delete_record (record_id : Int) (s : Data) : Data :=
  { s with records := s.records.filter (fun r => r.id != record_id) }

/-- `DataManager.update_location`. -/
def update_location (name address memo : String) (s : Data) : Data :=
  let s1 := if name ∉ s.centers then
      { s with centers := sortStrings (s.centers ++ [name]) }
    else s
  { s1 with locations := dictInsert name (address, memo) s1.locations }

/-! ### View-layer aggregation (tab_view, `src/app.py` lines 366–374)

The tab computes these sums over `filtered`, the month's records; they are
embedded as functions of an arbitrary record list. -/

def tot_inc (rs : List Rec) : Int := (rs.map Rec.income).sum

def tot_exp (rs : List Rec) : Int := (rs.map Rec.cost).sum

def tot_sub (rs : List Rec) : Int := (rs.map Rec.subsidy).sum

/-- `real_exp = tot_exp - tot_sub`. -/
def real_exp (rs : List Rec) : Int := tot_exp rs - tot_sub rs

/-- The `순수익` (net profit) metric: `tot_inc - real_exp`. -/
def net_profit (rs : List Rec) : Int := tot_inc rs - real_exp rs

/-! ### Statistics tab (tab_stats, `src/app.py` lines 421–438) -/

def transport_recs (rs : List Rec) : List Rec :=
  rs.filter (fun r => r.type == "화물운송")

def fuel_recs (rs : List Rec) : List Rec :=
  rs.filter (fun r => r.type == "주유소")

def tot_dist (rs : List Rec) : ℚ := ((transport_recs rs).map Rec.distance).sum

def trip_cnt (rs : List Rec) : Nat := (transport_recs rs).length

def tot_fuel (rs : List Rec) : ℚ := ((fuel_recs rs).map Rec.liters).sum

/-- `final_dist = tot_dist + correction` where
`correction = dm.data['settings'].get('mileage_correction', 0)`. -/
def final_dist (dt : Data) (rs : List Rec) : ℚ :=
  tot_dist rs + (dt.settings.mileage_correction : ℚ)

/-- The `평균 연비` (average fuel efficiency) metric:
`final_dist / tot_fuel` if `tot_fuel > 0`, else the displayed `0.0`. -/
def avg_efficiency (dt : Data) (rs : List Rec) : ℚ :=
  if 0 < tot_fuel rs then final_dist dt rs / tot_fuel rs else 0

/-! ### Batch income update (tab_settings, `src/app.py` lines 511–519)

The loop mutates matching records in place; the pure rendering maps the
update over the list. -/

def batch_update (batch_f batch_t : String) (target_inc : Int)
    (rs : List Rec) : List Rec :=
  rs.map fun r =>
    if r.type = "화물운송" ∧ r.from_ = batch_f ∧ r.to_ = batch_t then
      (if r.income = 0 then { r with income := target_inc } else r)
    else r

/-- The whole batch-apply action on the store state. -/
def batch_apply (batch_f batch_t : String) (target_inc : Int) (s : Data) : Data :=
  { s with records := batch_update batch_f batch_t target_inc s.records }

/-! ### Backup restore (tab_settings, `src/app.py` lines 545–554)

The restore button parses the uploaded file with `json.loads` and then runs
`dm.data = content` — the parsed payload, an arbitrary JSON value, replaces
the store state wholesale.  `JVal` is the JSON universe; `restore` models
the post-parse assignment (a `json.loads` failure is caught by the
`except`, leaving the state unchanged, and never reaches the assignment). -/

inductive JVal where
  | null : JVal
  | bool (b : Bool) : JVal
  | num (n : Int) : JVal
  | str (s : String) : JVal
  | arr (l : List JVal) : JVal
  | obj (l : List (String × JVal)) : JVal

/-- `dm.data = content`: the old state is discarded, nothing is validated. -/
def restore (content old : JVal) : JVal := content

/-- Whether a JSON object has a top-level key `k`. -/
def hasKey (k : String) : JVal → Bool
  | JVal.obj l => l.any (fun p => p.1 == k)
  | _ => false

/-! ### Concrete values used by witnesses and counterexamples -/

/-- A record with every default: the shape of `new_record` before the
type-specific fields are filled in. -/
def mkRec : Rec :=
  { id := 0, date := "2025-01-10", time := "10:00", type := "", income := 0
    cost := 0, distance := 0, from_ := "", to_ := "", unitPrice := 0
    liters := 0, brand := "", subsidy := 0, expenseItem := ""
    supplyItem := "", mileage := 0 }

/-- The Fuel record of the spec's scenario (§8):
`{type:Fuel, cost:100000, subsidy:20000, liters:40, distance:0}`. -/
def fuelRec : Rec :=
  { mkRec with type := "주유소", cost := 100000, subsidy := 20000, liters := 40 }

/-- The Transport record of the spec's scenario (§8):
`{type:Transport, distance:300, income:150000, cost:0}`. -/
def transRec : Rec :=
  { mkRec with id := 1, type := "화물운송", income := 150000, distance := 300 }

/-- The first Transport record of the route-learning scenario (C6):
`from="A", to="B", income=50000, distance=120`. -/
def c6rec1 : Rec :=
  { mkRec with id := 10, type := "화물운송", from_ := "A", to_ := "B"
               income := 50000, distance := 120 }

/-- The follow-up Transport record for the same pair with `income = 0`. -/
def c6rec2 : Rec :=
  { mkRec with id := 11, type := "화물운송", from_ := "A", to_ := "B"
               income := 0 }

/-- The backup payload of the claim: `{"centers": []}` (no `records` key). -/
def c3payload : JVal := JVal.obj [("centers", JVal.arr [])]

/-- An existing store state with a `records` key, as a JSON value. -/
def c3old : JVal :=
  JVal.obj [("records", JVal.arr [JVal.num 1]), ("centers", JVal.arr [JVal.str "안성"])]

/-- A stored Transport record with `income = 0`, pending settlement. -/
def zeroIncomeRec : Rec :=
  { mkRec with id := 20, type := "화물운송", from_ := "A", to_ := "B", income := 0 }

/-- The record used by the C7 witness. -/
def c7rec : Rec :=
  { mkRec with id := 42, type := "화물운송", from_ := "A", to_ := "B"
               income := 50000, distance := 120 }

/-- An Expense-type record carrying route fields, for the C8 counterexample. -/
def expenseRouteRec : Rec :=
  { mkRec with id := 30, type := "지출", from_ := "A", to_ := "B"
               income := 50000, distance := 120, cost := 7000 }

/-- The Transport record used by the C8 witness. -/
def c8rec : Rec :=
  { mkRec with id := 31, type := "화물운송", from_ := "A", to_ := "B"
               income := 60000 }

/-- The store used by the C10 witness. -/
def c10data : Data :=
  { initData with records := [{ mkRec with id := 7, type := "수입", income := 5000 }] }

/-! ## Helper lemmas: frame properties of the small store transformers -/

theorem learnFares_records (r : Rec) (s : Data) :
    (learnFares r s).records = s.records := by
  unfold learnFares; split <;> rfl

theorem learnFares_distances (r : Rec) (s : Data) :
    (learnFares r s).distances = s.distances := by
  unfold learnFares; split <;> rfl

theorem learnFares_costs (r : Rec) (s : Data) :
    (learnFares r s).costs = s.costs := by
  unfold learnFares; split <;> rfl

theorem learnFares_fares (r : Rec) (s : Data) :
    (learnFares r s).fares =
      if 0 < r.income then dictInsert (routeKey r) r.income s.fares
      else s.fares := by
  unfold learnFares; split <;> simp_all

theorem learnDistances_records (r : Rec) (s : Data) :
    (learnDistances r s).records = s.records := by
  unfold learnDistances; split <;> rfl

theorem learnDistances_fares (r : Rec) (s : Data) :
    (learnDistances r s).fares = s.fares := by
  unfold learnDistances; split <;> rfl

theorem learnDistances_costs (r : Rec) (s : Data) :
    (learnDistances r s).costs = s.costs := by
  unfold learnDistances; split <;> rfl

theorem learnDistances_distances (r : Rec) (s : Data) :
    (learnDistances r s).distances =
      if 0 < r.distance then dictInsert (routeKey r) r.distance s.distances
      else s.distances := by
  unfold learnDistances; split <;> simp_all

theorem learnCosts_records (r : Rec) (s : Data) :
    (learnCosts r s).records = s.records := by
  unfold learnCosts; split <;> rfl

theorem learnCosts_fares (r : Rec) (s : Data) :
    (learnCosts r s).fares = s.fares := by
  unfold learnCosts; split <;> rfl

theorem learnCosts_distances (r : Rec) (s : Data) :
    (learnCosts r s).distances = s.distances := by
  unfold learnCosts; split <;> rfl

theorem learnCosts_costs (r : Rec) (s : Data) :
    (learnCosts r s).costs =
      if 0 < r.cost then dictInsert (routeKey r) r.cost s.costs
      else s.costs := by
  unfold learnCosts; split <;> simp_all

theorem learnRoute_records (r : Rec) (s : Data) :
    (learnRoute r s).records = s.records := by
  unfold learnRoute; split
  · rw [learnCosts_records, learnDistances_records, learnFares_records]
  · rfl

theorem addCenter_records (l : String) (s : Data) :
    (addCenter l s).records = s.records := by
  unfold addCenter; split <;> rfl

theorem addCenter_fares (l : String) (s : Data) :
    (addCenter l s).fares = s.fares := by
  unfold addCenter; split <;> rfl

theorem addCenter_distances (l : String) (s : Data) :
    (addCenter l s).distances = s.distances := by
  unfold addCenter; split <;> rfl

theorem addCenter_costs (l : String) (s : Data) :
    (addCenter l s).costs = s.costs := by
  unfold addCenter; split <;> rfl

theorem learnExpense_records (r : Rec) (s : Data) :
    (learnExpense r s).records = s.records := by
  unfold learnExpense; split <;> rfl

theorem learnExpense_fares (r : Rec) (s : Data) :
    (learnExpense r s).fares = s.fares := by
  unfold learnExpense; split <;> rfl

theorem learnExpense_distances (r : Rec) (s : Data) :
    (learnExpense r s).distances = s.distances := by
  unfold learnExpense; split <;> rfl

theorem learnExpense_costs (r : Rec) (s : Data) :
    (learnExpense r s).costs = s.costs := by
  unfold learnExpense; split <;> rfl

theorem preAdd_records (r : Rec) (s : Data) :
    (preAdd r s).records = s.records := by
  unfold preAdd
  rw [learnExpense_records]
  split
  · rw [addCenter_records, addCenter_records, learnRoute_records]
  · rfl

/-- `add_record` appends the new record and leaves the existing records
untouched. -/
theorem add_record_records (r : Rec) (s : Data) :
    (add_record r s).records = s.records ++ [r] := by
  unfold add_record
  rw [preAdd_records]

/-! ## Claim theorems -/

/-- C1: for every record timestamp whose date parses as `YYYY-MM-DD` and
time as `HH:MM`, the statistical date equals the previous calendar day when
the hour is in `[0,3]` and the record's own calendar date when the hour is
in `[4,23]` (the parser guarantees `hour ≤ 23`); in particular `04:00` maps
to the same day and `00:00` to the previous day (see the witness).  The
previous-day case assumes the date is not `0001-01-01`, the minimum of
`datetime`'s range, which has no previous calendar day (there the source's
`dt - timedelta(days=1)` raises `OverflowError` and the bare `except`
returns the raw string). -/
theorem stat_date_boundary_rule (ds ts : String) (y m d h mi : Nat)
    (hp : parseDateTime ds ts = some (y, m, d, h, mi)) :
    (4 ≤ h → get_statistical_date ds ts = formatDate y m d) ∧
    (h ≤ 3 → ¬(y = 1 ∧ m = 1 ∧ d = 1) →
      get_statistical_date ds ts =
        formatDate (prevDay y m d).1 (prevDay y m d).2.1 (prevDay y m d).2.2) := by
  have hdef : get_statistical_date ds ts =
      if h < 4 then
        (if y = 1 ∧ m = 1 ∧ d = 1 then ds
         else formatDate (prevDay y m d).1 (prevDay y m d).2.1 (prevDay y m d).2.2)
      else formatDate y m d := by
    unfold get_statistical_date
    rw [hp]
  constructor
  · intro h4
    rw [hdef, if_neg (by omega)]
  · intro h3 hne
    rw [hdef, if_pos (by omega), if_neg hne]

/-- Witness for C1 at the spec's own examples: `04:00` stays on the same
day, `03:59` and `00:00` fall to the previous day. -/
theorem stat_date_boundary_rule_witness :
    get_statistical_date "2024-03-10" "04:00" = "2024-03-10" ∧
    get_statistical_date "2024-03-10" "03:59" = "2024-03-09" ∧
    get_statistical_date "2024-03-10" "00:00" = "2024-03-09" := by
  refine ⟨?_, ?_, ?_⟩
  · have h := (stat_date_boundary_rule "2024-03-10" "04:00" 2024 3 10 4 0
      (by decide)).1 (by decide)
    exact h.trans (by decide)
  · have h := (stat_date_boundary_rule "2024-03-10" "03:59" 2024 3 10 3 59
      (by decide)).2 (by decide) (by decide)
    exact h.trans (by decide)
  · have h := (stat_date_boundary_rule "2024-03-10" "00:00" 2024 3 10 0 0
      (by decide)).2 (by decide) (by decide)
    exact h.trans (by decide)

/-- C9: for every `(date, time)` input that cannot be parsed as
`"YYYY-MM-DD HH:MM"`, `get_statistical_date` is total (the bare `except`
catches the `ValueError`, so no exception reaches the caller) and returns
the raw `date` string unchanged as the bucketing key. -/
theorem malformed_timestamp_fallback (ds ts : String)
    (hp : parseDateTime ds ts = none) :
    get_statistical_date ds ts = ds := by
  unfold get_statistical_date
  rw [hp]

/-- Witness for C9 at a concrete malformed input. -/
theorem malformed_timestamp_fallback_witness :
    get_statistical_date "not-a-date" "xx" = "not-a-date" :=
  malformed_timestamp_fallback "not-a-date" "xx" (by decide)

/-- C2 counterexample: on the spec's own scenario records (a Fuel record
with `cost = 100000`, `subsidy = 20000` and a Transport record with
`income = 150000`), the view's net-profit metric is `70000`, not the
claimed `totalIncome - totalCost = 50000`: the subsidy IS added back at
this level. -/
theorem net_profit_subsidy_cex :
    net_profit [fuelRec, transRec] = 70000 ∧
    tot_inc [fuelRec, transRec] - tot_exp [fuelRec, transRec] = 50000 ∧
    net_profit [fuelRec, transRec] ≠
      tot_inc [fuelRec, transRec] - tot_exp [fuelRec, transRec] := by
  decide

/-- C2 amended: the monthly summary's net profit over a filtered record set
is subsidy-adjusted: for every record sequence,
`netProfit = Σ income - Σ cost + Σ subsidy`
(the view subtracts `real_exp = Σ cost - Σ subsidy`, not `Σ cost`). -/
theorem net_profit_subsidy_adjusted (rs : List Rec) :
    net_profit rs = tot_inc rs - tot_exp rs + tot_sub rs := by
  unfold net_profit real_exp
  omega

/-- C5 counterexample: with a stored mileage correction of `100` km and the
spec's scenario records (Transport distance `300`, Fuel liters `40`), the
stats tab reports an efficiency of `(300 + 100) / 40 = 10`, not the claimed
uncorrected `300 / 40 = 7.5`. -/
theorem fuel_efficiency_correction_cex :
    avg_efficiency
        { initData with settings := { subsidy_limit := 0, mileage_correction := 100 } }
        [fuelRec, transRec] = 10 ∧
    tot_dist [fuelRec, transRec] / tot_fuel [fuelRec, transRec] = 15 / 2 ∧
    avg_efficiency
        { initData with settings := { subsidy_limit := 0, mileage_correction := 100 } }
        [fuelRec, transRec] ≠
      tot_dist [fuelRec, transRec] / tot_fuel [fuelRec, transRec] := by
  with_unfolding_all decide

/-- C5 amended: for every store state and record set, when the Fuel
records' total liters is strictly positive the reported fuel efficiency is
`(Σ distance over Transport + mileage_correction) / (Σ liters over Fuel)` —
the mileage correction IS applied — and when total liters is `0` the
efficiency is reported as `0`. -/
theorem fuel_efficiency_with_correction (dt : Data) (rs : List Rec) :
    (0 < tot_fuel rs →
      avg_efficiency dt rs =
        (tot_dist rs + (dt.settings.mileage_correction : ℚ)) / tot_fuel rs) ∧
    (tot_fuel rs = 0 → avg_efficiency dt rs = 0) := by
  constructor
  · intro hf
    unfold avg_efficiency final_dist
    rw [if_pos hf]
  · intro hf
    unfold avg_efficiency
    rw [if_neg (by rw [hf]; exact lt_irrefl 0)]

/-- Witness for C5's amended theorem at a concrete store and record set. -/
theorem fuel_efficiency_with_correction_witness :
    avg_efficiency
        { initData with settings := { subsidy_limit := 0, mileage_correction := 100 } }
        [fuelRec, transRec] =
      (tot_dist [fuelRec, transRec] +
        (({ initData with settings := { subsidy_limit := 0, mileage_correction := 100 } } : Data).settings.mileage_correction : ℚ)) /
        tot_fuel [fuelRec, transRec] :=
  (fuel_efficiency_with_correction
    { initData with settings := { subsidy_limit := 0, mileage_correction := 100 } }
    [fuelRec, transRec]).1 (by with_unfolding_all decide)

/-- C6: adding a Transport record with `from="A"`, `to="B"`,
`income=50000`, `distance=120` sets `fares["A-B"]=50000` and
`distances["A-B"]=120`, and a subsequent add for the same pair with
`income=0` leaves `fares["A-B"]` unchanged at `50000` (only positive values
overwrite). -/
theorem route_learning_positive_overwrite :
    dictGet (add_record c6rec1 initData).fares "A-B" = some 50000 ∧
    dictGet (add_record c6rec1 initData).distances "A-B" = some 120 ∧
    dictGet (add_record c6rec2 (add_record c6rec1 initData)).fares "A-B" =
      some 50000 := by
  decide

/-- C3 counterexample: restoring the payload `{"centers": []}` is NOT
rejected — the store state is replaced by the payload (so it changes, and
the `records` key disappears); no `InvalidBackupFormat` validation exists
in the code. -/
theorem restore_no_validation_cex :
    hasKey "records" c3old = true ∧
    hasKey "records" (restore c3payload c3old) = false ∧
    restore c3payload c3old ≠ c3old := by
  refine ⟨rfl, rfl, fun hcontra => ?_⟩
  have h2 : hasKey "records" (restore c3payload c3old) = hasKey "records" c3old := by
    rw [hcontra]
  exact absurd h2 (by decide)

/-- C3 amended: the restore button assigns the parsed payload to the store
wholesale — any syntactically valid JSON payload, with or without a
`records` key, replaces the entire previous state; only a `json.loads`
failure is caught (leaving the state unchanged).  In particular a payload
without a `records` key stays without one. -/
theorem restore_replaces_state (content old : JVal) :
    restore content old = content ∧
    (hasKey "records" content = false →
      hasKey "records" (restore content old) = false) :=
  ⟨rfl, fun h => h⟩

/-- Witness for C3's amended theorem at the claim's payload. -/
theorem restore_replaces_state_witness :
    restore c3payload c3old = c3payload ∧
    hasKey "records" (restore c3payload c3old) = false := by
  have h := restore_replaces_state c3payload c3old
  exact ⟨h.1, h.2 (by decide)⟩

/-- C4 counterexample: the batch income update of the settings tab modifies
a stored record in place — after `add_record`, the record sits in the store
with `income = 0`, and `batch_apply "A" "B" 50000` rewrites that same
record's income to `50000` without any delete/re-add. -/
theorem record_immutability_cex :
    ((add_record zeroIncomeRec initData).records.map Rec.income = [0]) ∧
    ((batch_apply "A" "B" 50000 (add_record zeroIncomeRec initData)).records.map
        Rec.income = [50000]) := by
  decide

/-- C4 amended: `add_record` appends without touching prior records and
`delete_record` only removes (surviving records are the original elements),
but the batch income update DOES modify records in place: it maps over the
stored records and sets `income := target` on exactly those of type
Transport with matching `from`/`to` and `income = 0`, leaving every other
record (and every other field) unchanged. -/
theorem record_mutation_only_batch (s : Data) (r : Rec) (record_id : Int)
    (f t : String) (v : Int) (i : Nat) :
    (add_record r s).records = s.records ++ [r] ∧
    (delete_record record_id s).records =
      s.records.filter (fun x => x.id != record_id) ∧
    (batch_apply f t v s).records[i]? = (s.records[i]?).map (fun x =>
      if x.type = "화물운송" ∧ x.from_ = f ∧ x.to_ = t then
        (if x.income = 0 then { x with income := v } else x)
      else x) := by
  refine ⟨add_record_records r s, rfl, ?_⟩
  simp [batch_apply, batch_update, List.getElem?_map]

/-- C7: for every store state and record whose id is not already present,
`add_record` followed by `delete_record` of the same id restores `records`
exactly to the pre-add sequence, while `centers`, `locations`, `fares`,
`distances`, `costs`, `expense_items` and `settings` all keep exactly the
values the add produced — the learned side effects are not rolled back by
the delete. -/
theorem add_delete_roundtrip (s : Data) (r : Rec)
    (hfresh : ∀ x ∈ s.records, x.id ≠ r.id) :
    (delete_record r.id (add_record r s)).records = s.records ∧
    (delete_record r.id (add_record r s)).centers = (add_record r s).centers ∧
    (delete_record r.id (add_record r s)).locations = (add_record r s).locations ∧
    (delete_record r.id (add_record r s)).fares = (add_record r s).fares ∧
    (delete_record r.id (add_record r s)).distances = (add_record r s).distances ∧
    (delete_record r.id (add_record r s)).costs = (add_record r s).costs ∧
    (delete_record r.id (add_record r s)).expense_items = (add_record r s).expense_items ∧
    (delete_record r.id (add_record r s)).settings = (add_record r s).settings := by
  refine ⟨?_, rfl, rfl, rfl, rfl, rfl, rfl, rfl⟩
  show (add_record r s).records.filter (fun x => x.id != r.id) = s.records
  rw [add_record_records, List.filter_append]
  have h1 : s.records.filter (fun x => x.id != r.id) = s.records :=
    List.filter_eq_self.mpr (fun x hx => by simpa using hfresh x hx)
  have h2 : [r].filter (fun x => x.id != r.id) = [] := by
    simp
  rw [h1, h2, List.append_nil]

/-- Witness for C7 at the initial store and a concrete Transport record
(whose add does learn a fare that the delete keeps). -/
theorem add_delete_roundtrip_witness :
    (delete_record c7rec.id (add_record c7rec initData)).records =
      initData.records ∧
    (delete_record c7rec.id (add_record c7rec initData)).fares =
      (add_record c7rec initData).fares := by
  have h := add_delete_roundtrip initData c7rec (by decide)
  exact ⟨h.1, h.2.2.2.1⟩

/-- C8 counterexample: `add_record` on a record with non-empty `from`/`to`
but of type `지출` (Expense) — not a route type — learns nothing: the claim
says `fares["A-B"]` would be set to `50000` regardless of type, but all
three learned tables stay empty. -/
theorem route_learning_type_cex :
    dictGet (add_record expenseRouteRec initData).fares "A-B" = none ∧
    dictGet (add_record expenseRouteRec initData).distances "A-B" = none ∧
    dictGet (add_record expenseRouteRec initData).costs "A-B" = none := by
  decide

/-- C8 amended: the route key is computed and the positive-value learning
writes happen only for records whose type is one of the route types
(`화물운송`/`대기`/`공차이동`); for every record with non-empty `from` and
`to`, of any type, the fares/distances/costs tables after `add_record` are
updated exactly when the type is a route type and the corresponding value
is positive, and are unchanged otherwise. -/
theorem route_learning_requires_route_type (r : Rec) (s : Data)
    (hf : r.from_ ≠ "") (ht : r.to_ ≠ "") :
    ((add_record r s).fares =
      if r.type ∈ routeTypes ∧ 0 < r.income then
        dictInsert (routeKey r) r.income s.fares
      else s.fares) ∧
    ((add_record r s).distances =
      if r.type ∈ routeTypes ∧ 0 < r.distance then
        dictInsert (routeKey r) r.distance s.distances
      else s.distances) ∧
    ((add_record r s).costs =
      if r.type ∈ routeTypes ∧ 0 < r.cost then
        dictInsert (routeKey r) r.cost s.costs
      else s.costs) := by
  have hroute : (learnRoute r s).fares =
      (if 0 < r.income then dictInsert (routeKey r) r.income s.fares else s.fares) ∧
      (learnRoute r s).distances =
      (if 0 < r.distance then dictInsert (routeKey r) r.distance s.distances else s.distances) ∧
      (learnRoute r s).costs =
      (if 0 < r.cost then dictInsert (routeKey r) r.cost s.costs else s.costs) := by
    unfold learnRoute
    rw [if_pos ⟨hf, ht⟩]
    refine ⟨?_, ?_, ?_⟩
    · rw [learnCosts_fares, learnDistances_fares, learnFares_fares]
    · rw [learnCosts_distances, learnDistances_distances, learnFares_distances]
    · rw [learnCosts_costs, learnDistances_costs, learnFares_costs]
  show ((preAdd r s).fares = _) ∧ ((preAdd r s).distances = _) ∧ ((preAdd r s).costs = _)
  unfold preAdd
  by_cases hty : r.type ∈ routeTypes
  · rw [if_pos hty]
    refine ⟨?_, ?_, ?_⟩
    · rw [learnExpense_fares, addCenter_fares, addCenter_fares, hroute.1]
      by_cases hi : 0 < r.income
      · rw [if_pos hi, if_pos ⟨hty, hi⟩]
      · rw [if_neg hi, if_neg (fun hc => hi hc.2)]
    · rw [learnExpense_distances, addCenter_distances, addCenter_distances, hroute.2.1]
      by_cases hd : 0 < r.distance
      · rw [if_pos hd, if_pos ⟨hty, hd⟩]
      · rw [if_neg hd, if_neg (fun hc => hd hc.2)]
    · rw [learnExpense_costs, addCenter_costs, addCenter_costs, hroute.2.2]
      by_cases hc : 0 < r.cost
      · rw [if_pos hc, if_pos ⟨hty, hc⟩]
      · rw [if_neg hc, if_neg (fun hk => hc hk.2)]
  · rw [if_neg hty]
    refine ⟨?_, ?_, ?_⟩
    · rw [learnExpense_fares, if_neg (fun hc => hty hc.1)]
    · rw [learnExpense_distances, if_neg (fun hc => hty hc.1)]
    · rw [learnExpense_costs, if_neg (fun hc => hty hc.1)]

/-- Witness for C8's amended theorem at a concrete Transport record. -/
theorem route_learning_requires_route_type_witness :
    (add_record c8rec initData).fares =
      (if c8rec.type ∈ routeTypes ∧ 0 < c8rec.income then
        dictInsert (routeKey c8rec) c8rec.income initData.fares
      else initData.fares) :=
  (route_learning_requires_route_type c8rec initData (by decide) (by decide)).1

/-- C10: `delete_record` changes only the `records` field — `centers`,
`locations`, `fares`, `distances`, `costs`, `expense_items` and `settings`
are untouched; the resulting sequence is the original with every record of
the given id removed (duplicates included) in the original relative order
(i.e. a filter), and when no stored record has the id the records are
unchanged — a silent no-op, not an error. -/
theorem delete_record_frame (s : Data) (record_id : Int) :
    (delete_record record_id s).records =
      s.records.filter (fun x => x.id != record_id) ∧
    (delete_record record_id s).centers = s.centers ∧
    (delete_record record_id s).locations = s.locations ∧
    (delete_record record_id s).fares = s.fares ∧
    (delete_record record_id s).distances = s.distances ∧
    (delete_record record_id s).costs = s.costs ∧
    (delete_record record_id s).expense_items = s.expense_items ∧
    (delete_record record_id s).settings = s.settings ∧
    ((∀ x ∈ s.records, x.id ≠ record_id) →
      (delete_record record_id s).records = s.records) := by
  refine ⟨rfl, rfl, rfl, rfl, rfl, rfl, rfl, rfl, fun habs => ?_⟩
  show s.records.filter (fun x => x.id != record_id) = s.records
  exact List.filter_eq_self.mpr (fun x hx => by simpa using habs x hx)

/-- Witness for C10 at a concrete store and an id not present in it. -/
theorem delete_record_frame_witness :
    (delete_record 999 c10data).records = c10data.records ∧
    (delete_record 999 c10data).centers = c10data.centers := by
  have h := delete_record_frame c10data 999
  exact ⟨h.2.2.2.2.2.2.2.2 (by decide), h.2.1⟩

end CargoNote
